import Mathlib

/-!
Verification development for the agent execution engine of the OpenQuest
backend (`app/services/agent_service.py`, `app/services/agent_tools.py`,
`app/controllers/agent_controller.py`).

The Python code is shallowly embedded: Python `str` values become Lean
`String` (or `List Char` where character-level slicing matters), JSON
values become the inductive `JValue`, and every external collaborator
(the E2B sandbox, the OpenRouter chat endpoint, the GitHub REST API and
the regex/json standard-library calls) is modelled as an oracle supplied
through a "world" record, so that theorems quantify over all possible
collaborator behaviours.  Machine integers do not occur on the modelled
paths (lengths and counters are unbounded Python ints), so Nat/Int are
used directly.
-/

/-- JSON values as produced by `json.loads`.  Only integer numerals are
modelled; no modelled code path inspects a fractional number. -/
inductive JValue where
  | null
  | bool (b : Bool)
  | num (n : Int)
  | str (s : String)
  | arr (items : List JValue)
  | obj (fields : List (String × JValue))

/-- Python truthiness (`if not solution:` etc.) on a JSON value:
`None`, `False`, `0`, `""`, `[]` and `\x7b\x7d` are falsy. -/
def jTruthy : JValue → Bool
  | .null => false
  | .bool b => b
  | .num n => !(n == 0)
  | .str s => !(s == "")
  | .arr items => !items.isEmpty
  | .obj fields => !fields.isEmpty

/-- Truthiness of an optional JSON value (a Python variable that may
still be `None`). -/
def pyTruthyOpt : Option JValue → Bool
  | none => false
  | some j => jTruthy j

/-- Truthiness of an optional string (`if text_content:`). -/
def pyTruthyStrOpt : Option String → Bool
  | none => false
  | some s => !(s == "")

/-- Python `a or b` on strings where the falsy cases in the source are
`None`/empty (both modelled as `""`). -/
def pyOr (a b : String) : String := if a == "" then b else a

/-- Boolean prefix test on character lists. -/
def isPrefixB : List Char → List Char → Bool
  | [], _ => true
  | _ :: _, [] => false
  | a :: as, b :: bs => a == b && isPrefixB as bs

/-- Boolean substring test on character lists; the empty pattern occurs
everywhere, matching Python `"" in s`. -/
def isSubB (pat : List Char) : List Char → Bool
  | [] => isPrefixB pat []
  | c :: rest => isPrefixB pat (c :: rest) || isSubB pat rest

/-- Python `needle in hay` on strings. -/
def pyIn (needle hay : String) : Bool := isSubB needle.data hay.data

/-- Python `s.rstrip(cs)`: strip any trailing characters drawn from the
set `cs` (NOT suffix removal). -/
def pyRstrip (cs : List Char) (s : String) : String :=
  ⟨(s.data.reverse.dropWhile (fun c => cs.contains c)).reverse⟩

/-- Boolean suffix test on character lists. -/
def endsWithB (s suf : List Char) : Bool := isPrefixB suf.reverse s.reverse

/-- Python `s.removesuffix(suf)`: exact-suffix removal. -/
def pyRemovesuffix (s suf : String) : String :=
  if endsWithB s.data suf.data then ⟨s.data.take (s.data.length - suf.data.length)⟩ else s

/-- Python `s.lower()` (character-wise; the modelled strings are
ASCII). -/
def pyLower (s : String) : String := ⟨s.data.map Char.toLower⟩

/-- Python `s.strip()`: remove leading and trailing whitespace. -/
def pyStrip (s : String) : String :=
  ⟨((s.data.dropWhile Char.isWhitespace).reverse.dropWhile Char.isWhitespace).reverse⟩

/-- Worker for Python `s.split(sep)` (non-empty separator), scanning
left to right with `acc` the reversed current segment.  `fuel` is an
upper bound on the scanned list's length (each step consumes at least
one character, so starting it at the full length makes the out-of-fuel
branch unreachable; it exists only to keep the recursion structural). -/
def pySplitGo (sep : List Char) : Nat → List Char → List Char → List (List Char)
  | _, [], acc => [acc.reverse]
  | 0, _, acc => [acc.reverse]
  | fuel + 1, c :: rest, acc =>
    if isPrefixB sep (c :: rest) then
      acc.reverse :: pySplitGo sep fuel (List.drop (sep.length - 1) rest) []
    else
      pySplitGo sep fuel rest (c :: acc)

/-- Python `s.split(sep)` for a non-empty separator. -/
def pySplit (s sep : String) : List String :=
  (pySplitGo sep.data s.data.length s.data []).map (fun l => ⟨l⟩)

/-- Python iteration over a value whose elements are immediately used as
dicts (`for change in code_changes: change.get(...)`).  A list yields its
elements; an empty string or empty dict yields nothing; a non-empty
string or dict yields strings, whose `.get` raises `AttributeError`;
scalars are not iterable (`TypeError`).  The error payloads name the
Python exception class; the exact interpreter message is not modelled. -/
def pyIterItems : JValue → Except String (List JValue)
  | .arr xs => .ok xs
  | .str s => if s == "" then .ok [] else .error "AttributeError"
  | .obj fields => if fields.isEmpty then .ok [] else .error "AttributeError"
  | _ => .error "TypeError"

/-- Python `d[key] = v` on a dict represented as an insertion-ordered
association list: overwrite in place if present, else append. -/
def setKey (fields : List (String × JValue)) (key : String) (v : JValue) :
    List (String × JValue) :=
  if (fields.lookup key).isSome then
    fields.map (fun kv => if kv.1 = key then (kv.1, v) else kv)
  else fields ++ [(key, v)]

/-! ## `AgentService._truncate_output` (agent_service.py lines 487-500) -/

/-- The spliced marker
`"\n\n... [TRUNCATED - original length: N chars] ...\n\n"`. -/
def truncMarker (origLen : Nat) : List Char :=
  "\n\n... [TRUNCATED - original length: ".data ++ (toString origLen).data
    ++ " chars] ...\n\n".data

/-- Python `text[-n:]`: the last `n` characters, except that `text[-0:]`
is the whole string. -/
def pySliceLast (n : Nat) (l : List Char) : List Char :=
  if n = 0 then l else l.drop (l.length - n)

/-- `AgentService._truncate_output`: budget is `max_tokens_per_tool * 4`
characters; oversized text keeps the first and last half of the budget
around the marker. -/
def truncate_output (maxTokensPerTool : Nat) (text : List Char) : List Char :=
  let maxChars := maxTokensPerTool * 4
  if text.length ≤ maxChars then text
  else
    let half := maxChars / 2
    text.take half ++ truncMarker text.length ++ pySliceLast half text

/-! ## `AgentService._parse_solution` (agent_service.py lines 723-786)

The two extraction attempts (`re.search` on a fenced block /
on a brace span, each followed by `json.loads` with `JSONDecodeError`
suppressed) are standard-library calls; each is modelled as an oracle of
type `Option JValue`: `none` when the regex found nothing or the
extracted text failed to parse, `some j` when parsing produced `j`. -/

/-- The degraded fallback dict returned when no truthy JSON was parsed
(agent_service.py lines 745-755). -/
def degradedSolution (text : String) : JValue :=
  .obj [
    ("summary", .str "See raw analysis below"),
    ("root_cause_analysis", .str text),
    ("affected_files", .arr []),
    ("key_insights", .arr []),
    ("suggested_fix", .str ""),
    ("comments_to_add", .arr []),
    ("commit_message", .str "docs: add issue analysis")]

/-- The placeholder blocklist (agent_service.py line 760). -/
def invalid_patterns : List String :=
  ["unknown_file", "placeholder", "example", "path/to/"]

/-- One iteration of the `code_changes` validation loop
(agent_service.py lines 762-777): `.ok none` means the entry is skipped,
`.ok (some c)` means it is kept, `.error` models a raised exception
(`change.get` on a non-dict, `.lower()` on a non-string). -/
def validateChange (change : JValue) : Except String (Option JValue) :=
  match change with
  | .obj fields =>
    let filePath := (fields.lookup "file").getD (.str "")
    if !(jTruthy filePath) then .ok none
    else
      match filePath with
      | .str s =>
        if invalid_patterns.any (fun pat => pyIn pat (pyLower s)) then .ok none
        else .ok (some change)
      | _ => .error "AttributeError"
  | _ => .error "AttributeError"

/-- The full validation loop over `code_changes`. -/
def validateChanges : List JValue → Except String (List JValue)
  | [] => .ok []
  | c :: rest =>
    match validateChange c with
    | .error e => .error e
    | .ok none => validateChanges rest
    | .ok (some v) =>
      match validateChanges rest with
      | .error e => .error e
      | .ok vs => .ok (v :: vs)

/-- `AgentService._parse_solution`.  `fenced` is the outcome of the
fenced-block extraction attempt, `brace` of the brace-span attempt,
`text` the raw model output.  Mirrors the source exactly: a falsy parse
result (such as `\x7b\x7d`) falls through to the next attempt and then to the
degraded fallback; only `code_changes` is validated, and the validated
list is written back into the dict. -/
def parse_solution (fenced brace : Option JValue) (text : String) :
    Except String JValue :=
  let solution : Option JValue :=
    if pyTruthyOpt fenced then fenced
    else
      match brace with
      | some b => some b
      | none => fenced
  match solution with
  | none => .ok (degradedSolution text)
  | some j =>
    if !(jTruthy j) then .ok (degradedSolution text)
    else
      match j with
      | .obj fields =>
        match pyIterItems ((fields.lookup "code_changes").getD (.arr [])) with
        | .error e => .error e
        | .ok changes =>
          match validateChanges changes with
          | .error e => .error e
          | .ok valid => .ok (.obj (setKey fields "code_changes" (.arr valid)))
      | _ => .error "AttributeError"

/-- Spec-side keep predicate for a `code_changes` entry: a dict whose
`file` value is a non-empty string containing no blocklisted substring.
Used to compare the source's validation loop with a plain filter. -/
def keepChange (c : JValue) : Bool :=
  match c with
  | .obj fields =>
    match (fields.lookup "file").getD (.str "") with
    | .str s => !(s == "") && !(invalid_patterns.any fun pat => pyIn pat (pyLower s))
    | _ => false
  | _ => false

/-- A `code_changes` entry on which the validation loop cannot raise: a
dict whose `file` value (defaulted to `""`) is a string. -/
def wellFormedChange (c : JValue) : Bool :=
  match c with
  | .obj fields =>
    match (fields.lookup "file").getD (.str "") with
    | .str _ => true
    | _ => false
  | _ => false

/-! ## Tool registry (`app/services/agent_tools.py`) -/

/-- The `function` payload of a tool definition. -/
structure ToolFunctionDef where
  name : String
  description : String
  parameters : JValue

/-- One entry of `AGENT_TOOLS` (`\x7b"type": "function", "function": ...\x7d`). -/
structure ToolDefEntry where
  type : String
  function : ToolFunctionDef

/-- `AGENT_TOOLS` (agent_tools.py lines 6-96), transcribed entry by
entry.  Note the module defines five entries; `write_file` has a
dispatch branch in `AgentService.execute_tool` but no registry entry. -/
def AGENT_TOOLS : List ToolDefEntry := [
  { type := "function",
    function := {
      name := "read_file",
      description := "Read the contents of a file in the repository. Use this to understand code structure and implementation details.",
      parameters := .obj [
        ("type", .str "object"),
        ("properties", .obj [
          ("path", .obj [
            ("type", .str "string"),
            ("description", .str "File path relative to repository root (e.g., \x27src/main.py\x27, \x27README.md\x27)")])]),
        ("required", .arr [.str "path"])] } },
  { type := "function",
    function := {
      name := "list_files",
      description := "List files and directories in a given path. Use this to explore the project structure.",
      parameters := .obj [
        ("type", .str "object"),
        ("properties", .obj [
          ("path", .obj [
            ("type", .str "string"),
            ("description", .str "Directory path relative to repository root. Use \x27.\x27 for root directory."),
            ("default", .str ".")])])] } },
  { type := "function",
    function := {
      name := "search_code",
      description := "Search for a pattern in the codebase using grep. Use this to find relevant code sections.",
      parameters := .obj [
        ("type", .str "object"),
        ("properties", .obj [
          ("pattern", .obj [
            ("type", .str "string"),
            ("description", .str "Search pattern (supports regex)")]),
          ("file_pattern", .obj [
            ("type", .str "string"),
            ("description", .str "Optional file glob pattern to limit search (e.g., \x27*.py\x27, \x27*.ts\x27)")])]),
        ("required", .arr [.str "pattern"])] } },
  { type := "function",
    function := {
      name := "run_command",
      description := "Run a shell command in the repository. Use this to run tests, check dependencies, or execute other commands.",
      parameters := .obj [
        ("type", .str "object"),
        ("properties", .obj [
          ("command", .obj [
            ("type", .str "string"),
            ("description", .str "Shell command to execute (e.g., \x27npm test\x27, \x27python -m pytest\x27)")])]),
        ("required", .arr [.str "command"])] } },
  { type := "function",
    function := {
      name := "get_file_tree",
      description := "Get the directory structure of the repository as a tree. Use this to understand overall project layout.",
      parameters := .obj [
        ("type", .str "object"),
        ("properties", .obj [
          ("max_depth", .obj [
            ("type", .str "integer"),
            ("description", .str "Maximum depth of the tree (default: 3)"),
            ("default", .num 3)])])] } }]

/-- `get_tool_names` (agent_tools.py lines 99-101). -/
def get_tool_names : List String := AGENT_TOOLS.map (fun t => t.function.name)

/-- `get_tool_by_name` (agent_tools.py lines 104-109). -/
def get_tool_by_name (name : String) : Option ToolDefEntry :=
  AGENT_TOOLS.find? (fun t => t.function.name == name)

/-- The tool names recognised by the dispatch chain of
`AgentService.execute_tool` (agent_service.py lines 382-460); unlike the
registry it includes `write_file`. -/
def executor_tool_names : List String :=
  ["read_file", "list_files", "search_code", "run_command", "get_file_tree", "write_file"]

/-! ## Events (`app/dto/agent_dto.py`)

`ServiceEvent` covers exactly the variants the service layer constructs
(`AgentStatusEvent`, `AgentThinkingEvent`, `AgentToolEvent`,
`AgentSolutionEvent`, `AgentErrorEvent`, `AgentDiffEvent`,
`AgentImplementResultEvent`).  `AgentDoneEvent` is constructed only in
the controller, which the type `SSEMessage` makes structural. -/

/-- `AgentStep` (agent_dto.py lines 9-18). -/
inductive AgentStep where
  | cloning
  | analyzing
  | proposing
  | implementing
  | pushing
  | done
  | error

/-- The event variants yielded by `AgentService` generators. -/
inductive ServiceEvent where
  | status (step : AgentStep) (message : String)
  | thinking (content : String)
  | tool (toolName : String) (toolInput : JValue) (toolResult : Option String)
  | solution (sessionId : Option String) (data : JValue)
  | error (message : String)
  | diff (data : String)
  | result (branch branchUrl prUrl diffText : String)

/-- One server-sent message of the controller generators: a forwarded
service event or the closing `done` message. -/
inductive SSEMessage where
  | fromService (e : ServiceEvent)
  | done

/-- Tag test for the `done` SSE message. -/
def isDoneMsg : SSEMessage → Bool
  | .done => true
  | _ => false

/-! ## The analysis loop (`AgentService.analyze_issue_stream`,
agent_service.py lines 502-721)

External collaborators are oracles in `AnalyzeWorld`:
* `createRes` — the outcome of `Sandbox.create` (exception message on
  failure);
* `cloneRes` — the outcome of the `git clone` sandbox command
  (`.error` when the SDK call raises, otherwise the command result);
* `llm` — the outcome of the n-th `generate_with_tools` call; the
  message history influences only the LLM, so it is absorbed into this
  oracle and not tracked separately;
* `toolResult` — the string produced by the n-th `execute_tool`
  invocation; `execute_tool` converts every internal failure into
  `ToolExecutionError`, which the loop catches and renders as
  `"Error: ..."`, so a plain string oracle is faithful;
* `fenced`/`brace` — the `_parse_solution` extraction oracles. -/

/-- A tool call as returned by `OpenRouterService.parse_tool_calls`. -/
structure ToolCallSpec where
  id : String
  name : String
  args : JValue

/-- The fields of an LLM response the loop reads:
`get_text_content`, `get_finish_reason`, `parse_tool_calls`. -/
structure LLMResponse where
  content : Option String
  finishReason : String
  toolCalls : List ToolCallSpec

/-- Result of a sandbox command (`exit_code`, `stdout`, `stderr`). -/
structure CmdResult where
  exitCode : Int
  stdout : String
  stderr : String

/-- Oracle record for one `analyze_issue_stream` run. -/
structure AnalyzeWorld where
  e2bKeyPresent : Bool
  createRes : Except String Unit
  cloneRes : Except String CmdResult
  llm : Nat → Except String LLMResponse
  toolResult : Nat → String
  fenced : Option JValue
  brace : Option JValue

/-- `AgentAnalyzeRequest` (agent_dto.py lines 21-27). -/
structure AgentAnalyzeRequest where
  repo_url : String
  issue_title : String
  issue_body : String
  issue_number : Int

/-- Mutable state of the turn loop: events yielded so far, the tool
lists passed to each LLM call so far, and the `execute_tool` invocation
counter. -/
structure LoopState where
  events : List ServiceEvent
  llmCalls : List (List ToolDefEntry)
  toolCounter : Nat

/-- How the turn loop ended: normal `return` after a solution, falling
off the end of `range(max_turns)`, or an exception propagating out. -/
inductive LoopOutcome where
  | finished (st : LoopState)
  | fellThrough (st : LoopState)
  | raised (st : LoopState) (msg : String)

/-- The loop state carried by an outcome. -/
def LoopOutcome.state : LoopOutcome → LoopState
  | .finished st => st
  | .fellThrough st => st
  | .raised st _ => st

/-- The 500-character cap applied to the streamed copy of a tool result
(agent_service.py lines 684-690). -/
def capToolResult (s : String) : String :=
  if s.length > 500 then s.take 500 ++ "..." else s

/-- The per-turn tool-execution loop (agent_service.py lines 665-698):
for each call, a `tool` event with input only, then a `tool` event
carrying the capped result.  Returns the yielded events and the advanced
tool counter; the tool-role messages go only into LLM history (absorbed
by the `llm` oracle). -/
def runToolCalls (w : AnalyzeWorld) (counter : Nat) :
    List ToolCallSpec → List ServiceEvent × Nat
  | [] => ([], counter)
  | tc :: rest =>
    let res := w.toolResult counter
    let pr := runToolCalls w (counter + 1) rest
    (ServiceEvent.tool tc.name tc.args none ::
      ServiceEvent.tool tc.name tc.args (some (capToolResult res)) :: pr.1,
      pr.2)

/-- The turn loop (`for turn in range(self.max_turns)`, agent_service.py
lines 572-707), with `fuel` the number of remaining turns (initially
`maxTurns`, so `turn + fuel = maxTurns` throughout).  On the final turn a
forcing instruction is appended to the (oracle-absorbed) history and the
tool list passed to the LLM is empty. -/
def loopGo (w : AnalyzeWorld) (maxTurns : Nat) : Nat → Nat → LoopState → LoopOutcome
  | 0, _, st => .fellThrough st
  | fuel + 1, turn, st =>
    let tools : List ToolDefEntry := if turn == maxTurns - 1 then [] else AGENT_TOOLS
    let st1 : LoopState :=
      { events := st.events, llmCalls := st.llmCalls ++ [tools],
        toolCounter := st.toolCounter }
    match w.llm st.llmCalls.length with
    | .error m => .raised st1 ("LLM API call failed: " ++ m)
    | .ok resp =>
      let st2 : LoopState :=
        if pyTruthyStrOpt resp.content then
          { st1 with events := st1.events ++ [ServiceEvent.thinking (resp.content.getD "")] }
        else st1
      if resp.finishReason == "stop" || turn == maxTurns - 1 then
        let st3 : LoopState :=
          { st2 with events := st2.events ++ [ServiceEvent.status .proposing "Preparing solution..."] }
        match parse_solution w.fenced w.brace (resp.content.getD "") with
        | .error m => .raised st3 m
        | .ok sol =>
          .finished { st3 with events := st3.events ++
            [ServiceEvent.solution none sol,
             ServiceEvent.status .done "Analysis complete"] }
      else
        match resp.toolCalls with
        | [] => loopGo w maxTurns fuel (turn + 1) st2
        | tc :: rest =>
          let pr := runToolCalls w st2.toolCounter (tc :: rest)
          loopGo w maxTurns fuel (turn + 1)
            { events := st2.events ++ pr.1, llmCalls := st2.llmCalls,
              toolCounter := pr.2 }

/-- `AgentService.cleanup` (agent_service.py lines 864-879): number of
`sandbox.kill()` invocations for one `cleanup()` call.  A kill failure
is caught and logged, so both outcomes of `killRes` count one
invocation and resolve the sandbox to `None`. -/
def cleanup_kill_count (killRes : Except String Unit) (sandbox : Option Unit) : Nat :=
  match sandbox with
  | none => 0
  | some _ =>
    match killRes with
    | .ok _ => 1
    | .error _ => 1

/-- The clone phase of `AgentService.start_sandbox` (agent_service.py
lines 142-169): an SDK exception or a non-zero exit becomes a
`CloneError`, whose `str` is `"Failed to clone <url>: <detail>"`. -/
def start_sandbox_clone (cloneRes : Except String CmdResult) (repoUrl : String) :
    Except String Unit :=
  match cloneRes with
  | .error m => .error ("Failed to clone " ++ repoUrl ++ ": " ++ m)
  | .ok r =>
    if !(r.exitCode == 0) then
      .error ("Failed to clone " ++ repoUrl ++ ": " ++ pyOr r.stderr "Unknown error")
    else .ok ()

/-- Observable outcome of one service-generator run. -/
structure RunResult where
  events : List ServiceEvent
  exc : Option String
  llmCalls : List (List ToolDefEntry)
  createCalls : Nat
  sandboxCreated : Bool
  killCalls : Nat

/-- `AgentService.analyze_issue_stream` (agent_service.py lines
502-721).  `kr` is the outcome of the `sandbox.kill()` attempted during
the `finally:` cleanup.  The `except` block yields an error event with
the exception text and re-raises (`exc`); the `finally:` block always
runs `cleanup()`. -/
def analyze_issue_stream (w : AnalyzeWorld) (kr : Except String Unit)
    (req : AgentAnalyzeRequest) (maxTurns : Nat) : RunResult :=
  let ev0 : List ServiceEvent :=
    [.status .cloning ("Starting sandbox and cloning " ++ req.repo_url ++ "...")]
  if w.e2bKeyPresent then
    match w.createRes with
    | .error m =>
      { events := ev0 ++ [.error ("Failed to create sandbox: " ++ m)],
        exc := some ("Failed to create sandbox: " ++ m), llmCalls := [],
        createCalls := 1, sandboxCreated := false,
        killCalls := cleanup_kill_count kr none }
    | .ok _ =>
      match start_sandbox_clone w.cloneRes req.repo_url with
      | .error m =>
        { events := ev0 ++ [.error m], exc := some m, llmCalls := [],
          createCalls := 1, sandboxCreated := true,
          killCalls := cleanup_kill_count kr (some ()) }
      | .ok _ =>
        let ev1 := ev0 ++
          [.status .cloning "Repository cloned successfully",
           .status .analyzing "Analyzing issue..."]
        let outcome := loopGo w maxTurns maxTurns 0
          { events := [], llmCalls := [], toolCounter := 0 }
        { events := ev1 ++ outcome.state.events ++
            (match outcome with
             | .raised _ m => [ServiceEvent.error m]
             | _ => []),
          exc := (match outcome with | .raised _ m => some m | _ => none),
          llmCalls := outcome.state.llmCalls,
          createCalls := 1, sandboxCreated := true,
          killCalls := cleanup_kill_count kr (some ()) }
  else
    { events := ev0 ++ [.error "E2B API key is not configured"],
      exc := some "E2B API key is not configured", llmCalls := [],
      createCalls := 0, sandboxCreated := false,
      killCalls := cleanup_kill_count kr none }

/-- The SSE generator of `POST /agent/analyze`
(agent_controller.py lines 81-188).  `initErr` models a `ValueError`
from `OpenRouterService()` construction (missing API key); `sessionId`
is the id under which the controller saved the solution (None when the
save failed — the failure itself is swallowed).  A solution event is
re-emitted with the session id; any exception from the stream yields a
controller-level error event; the `finally:` block always yields
`done`. -/
def analyze_event_generator (initErr : Option String) (w : AnalyzeWorld)
    (kr : Except String Unit) (req : AgentAnalyzeRequest)
    (sessionId : Option String) (maxTurns : Nat) : List SSEMessage :=
  match initErr with
  | some m => [.fromService (.error ("Configuration error: " ++ m)), .done]
  | none =>
    let r := analyze_issue_stream w kr req maxTurns
    (r.events.map (fun e =>
      match e with
      | .solution _ d => SSEMessage.fromService (.solution sessionId d)
      | e => SSEMessage.fromService e))
    ++ (match r.exc with
        | some m => [SSEMessage.fromService (.error m)]
        | none => [])
    ++ [.done]

/-! ## The implementation executor
(`AgentService.implement_solution_stream`, agent_service.py lines
881-1176, with `_start_sandbox_with_fork` lines 171-360 and the GitHub
lookups `_get_github_username` / `_check_repo_exists` lines 1178-1234)

GitHub lookups never raise (they catch internally and return
`None`/`bool`), so they are plain oracle fields.  The best-effort git
sub-steps of the fork sync (upstream remote add, fetch, default-branch
probe, `checkout -B`) are each wrapped in a try/except that only logs;
they have no observable effect and are not given oracle fields.
Likewise the two `git config` calls and the per-comment file edits are
swallowed on failure.  `ANALYSIS.md` generation+write
(`_generate_analysis_md` plus `files.write`) is condensed into the
single exception point `analysisWriteRes`, which sits at exactly the
same position in the control flow. -/

/-- Oracle record for one `implement_solution_stream` run. -/
structure ImplWorld where
  username : Option String
  repoExists : Bool
  e2bKeyPresent : Bool
  createRes : Except String Unit
  forkCloneRes : Except String CmdResult
  branchRes : Except String CmdResult
  analysisWriteRes : Except String Unit
  addRes : Except String Unit
  diffCachedRes : Except String CmdResult
  commitRes : Except String CmdResult
  diffRes : Except String CmdResult
  pushRes : Except String CmdResult

/-- Owner/repo extraction (agent_service.py lines 915-918):
`repo_url.rstrip("/").removesuffix(".git").split("/")`, then
`parts[-2]`/`parts[-1]`; fewer than two parts raises `IndexError`. -/
def parseOwnerRepo (repoUrl : String) : Option (String × String) :=
  let parts := pySplit (pyRemovesuffix (pyRstrip ['/'] repoUrl) ".git") "/"
  match parts.reverse with
  | last :: second :: _ => some (second, last)
  | _ => none

/-- Error classification for a fork clone that exited non-zero
(agent_service.py lines 247-276). -/
def fork_clone_error_msg (forkUrl : String) (r : CmdResult) : String :=
  let errorOutput0 := r.stdout ++ r.stderr
  let errorOutput :=
    if pyStrip errorOutput0 == "" then
      "Git clone failed with exit code " ++ toString r.exitCode ++
        ". No error output captured."
    else errorOutput0
  if pyIn "not found" (pyLower errorOutput) || pyIn "does not exist" (pyLower errorOutput) then
    match pySplit forkUrl "github.com/" with
    | _ :: second :: _ =>
      "Repository \x27" ++ pyRstrip ['.', 'g', 'i', 't'] second ++
        "\x27 not found. Please fork the original repository first, then try again."
    | _ => errorOutput
  else if pyIn "Authentication failed" errorOutput ||
      pyIn "could not read Username" errorOutput then
    "GitHub authentication failed. Please check your token has \x27repo\x27 scope."
  else errorOutput

/-- Outcome of `_start_sandbox_with_fork`: the raised exception text (if
any), how many times `Sandbox.create` was called, and whether a sandbox
was successfully created (and hence must be torn down). -/
structure ForkStartResult where
  res : Except String Unit
  createCalls : Nat
  created : Bool

/-- `AgentService._start_sandbox_with_fork` (agent_service.py lines
171-360).  An SDK exception during the clone is wrapped as
`CloneError(fork_url, "Sandbox command failed: ...")`; a non-zero exit
is classified by `fork_clone_error_msg`.  The subsequent sync steps are
best-effort and unobservable. -/
def start_sandbox_with_fork (w : ImplWorld) (forkUrl : String) : ForkStartResult :=
  if w.e2bKeyPresent then
    match w.createRes with
    | .error m =>
      { res := .error ("Failed to create sandbox: " ++ m), createCalls := 1,
        created := false }
    | .ok _ =>
      match w.forkCloneRes with
      | .error m =>
        { res := .error ("Failed to clone " ++ forkUrl ++ ": Sandbox command failed: "
            ++ m ++ ". Check if the repository exists and the token has access."),
          createCalls := 1, created := true }
      | .ok r =>
        if !(r.exitCode == 0) then
          { res := .error ("Failed to clone " ++ forkUrl ++ ": "
              ++ fork_clone_error_msg forkUrl r),
            createCalls := 1, created := true }
        else
          { res := .ok (), createCalls := 1, created := true }
  else
    { res := .error "E2B API key is not configured", createCalls := 0,
      created := false }

/-- Rendering of a JSON value inside an f-string.  Only the scalar
shapes are reachable with meaningful output on the modelled paths;
container reprs are abbreviated (no modelled property inspects them). -/
def pyFormat : JValue → String
  | .str s => s
  | .num n => toString n
  | .bool b => if b then "True" else "False"
  | .null => "None"
  | .arr _ => "[...]"
  | .obj _ => "\x7b...\x7d"

/-- The `comments_to_add` loop (agent_service.py lines 996-1046).
`i` enumerates all entries, `total` is the full list length.  Entries
with a falsy file/comment/line_number are skipped silently; a retained
entry yields one status event before its (failure-swallowed) file edit.
A non-dict entry raises `AttributeError` before the per-entry `try:`,
aborting the run. -/
def comment_events (total : Nat) : Nat → List JValue → Except String (List ServiceEvent)
  | _, [] => .ok []
  | i, c :: rest =>
    match c with
    | .obj fields =>
      let fp := (fields.lookup "file").getD (.str "")
      let ln := (fields.lookup "line_number").getD (.num 0)
      let cm := (fields.lookup "comment").getD (.str "")
      if !(jTruthy fp) || !(jTruthy cm) || !(jTruthy ln) then
        comment_events total (i + 1) rest
      else
        match comment_events total (i + 1) rest with
        | .error e => .error e
        | .ok evs =>
          .ok (ServiceEvent.status .implementing
            ("Adding comment to " ++ pyFormat fp ++ " (" ++ toString (i + 1)
              ++ "/" ++ toString total ++ ")...") :: evs)
    | _ => .error "AttributeError"

/-- The body of `implement_solution_stream` after a successful fork
clone+sync (agent_service.py lines 946-1168): branch creation, analysis
document, inline comments, staging, empty-diff check, commit, diff
event, push, result event.  Every early `return`-after-error and the
exception-to-error-event conversion of the surrounding `except` are
folded into the produced event list (the generator never re-raises). -/
def implement_core (w : ImplWorld) (solution : JValue)
    (branchName username repoName originalOwner : String) : List ServiceEvent :=
  let evs : List ServiceEvent :=
    [.status .cloning "Repository cloned and synced with upstream",
     .status .implementing ("Creating branch " ++ branchName ++ "...")]
  match w.branchRes with
  | .error m => evs ++ [.error ("Failed to create branch: " ++ m)]
  | .ok r =>
    if !(r.exitCode == 0) then
      evs ++ [.error ("Failed to create branch: " ++ r.stderr)]
    else
      let evs := evs ++ [.status .implementing "Generating ANALYSIS.md..."]
      match solution with
      | .obj solFields =>
        match w.analysisWriteRes with
        | .error m => evs ++ [.error m]
        | .ok _ =>
          match pyIterItems ((solFields.lookup "comments_to_add").getD (.arr [])) with
          | .error m => evs ++ [.error m]
          | .ok comments =>
            match comment_events comments.length 0 comments with
            | .error m => evs ++ [.error m]
            | .ok cevs =>
              let evs := evs ++ cevs ++ [.status .implementing "Staging changes..."]
              match w.addRes with
              | .error m => evs ++ [.error ("Failed to stage changes: " ++ m)]
              | .ok _ =>
                let emptyStaged :=
                  match w.diffCachedRes with
                  | .error _ => false
                  | .ok r => pyStrip r.stdout == ""
                if emptyStaged then
                  evs ++ [.error "No changes to commit. The patches may not have modified any files."]
                else
                  let evs := evs ++ [.status .implementing "Committing changes..."]
                  match w.commitRes with
                  | .error m => evs ++ [.error ("Failed to commit: " ++ m)]
                  | .ok r =>
                    if !(r.exitCode == 0) then
                      evs ++ [.error ("Failed to commit: "
                        ++ pyOr r.stderr (pyOr r.stdout "Unknown error"))]
                    else
                      let diffContent :=
                        match w.diffRes with
                        | .error _ => ""
                        | .ok r => r.stdout
                      let evs := evs ++
                        [.diff diffContent,
                         .status .pushing ("Pushing to " ++ username ++ "/"
                           ++ repoName ++ ":" ++ branchName ++ "...")]
                      match w.pushRes with
                      | .error m => evs ++ [.error ("Failed to push: " ++ m)]
                      | .ok r =>
                        if !(r.exitCode == 0) then
                          evs ++ [.error ("Failed to push. Make sure you have forked "
                            ++ originalOwner ++ "/" ++ repoName
                            ++ " first. Error: " ++ r.stderr)]
                        else
                          evs ++
                            [.result branchName
                              ("https://github.com/" ++ username ++ "/" ++ repoName
                                ++ "/tree/" ++ branchName)
                              ("https://github.com/" ++ originalOwner ++ "/" ++ repoName
                                ++ "/compare/main..." ++ username ++ ":" ++ repoName
                                ++ ":" ++ branchName ++ "?expand=1")
                              (if diffContent.length > 5000 then diffContent.take 5000
                               else diffContent),
                             .status .done ("Successfully pushed to " ++ username
                               ++ "/" ++ repoName ++ ":" ++ branchName)]
      | _ => evs ++ [.error "AttributeError"]

/-- `AgentService.implement_solution_stream` (agent_service.py lines
881-1176).  Preconditions (username lookup, owner/repo parse, fork
existence) run before any sandbox is created; the `except` block turns
any exception into an error event without re-raising, and the
`finally:` block always runs `cleanup()`. -/
def implement_solution_stream (w : ImplWorld) (kr : Except String Unit)
    (solution : JValue) (repoUrl branchName githubToken : String)
    (commitMessage : Option String) : RunResult :=
  match w.username with
  | none =>
    { events := [.error "Failed to get GitHub username from token"], exc := none,
      llmCalls := [], createCalls := 0, sandboxCreated := false,
      killCalls := cleanup_kill_count kr none }
  | some username =>
    match parseOwnerRepo repoUrl with
    | none =>
      { events := [.error "list index out of range"], exc := none, llmCalls := [],
        createCalls := 0, sandboxCreated := false,
        killCalls := cleanup_kill_count kr none }
    | some (originalOwner, repoName) =>
      if w.repoExists then
        let forkUrl := "https://" ++ githubToken ++ "@github.com/" ++ username
          ++ "/" ++ repoName ++ ".git"
        let ev0 : List ServiceEvent :=
          [.status .cloning ("Creating sandbox and cloning " ++ username ++ "/"
            ++ repoName ++ "...")]
        let fs := start_sandbox_with_fork w forkUrl
        match fs.res with
        | .error m =>
          { events := ev0 ++ [.error m], exc := none, llmCalls := [],
            createCalls := fs.createCalls, sandboxCreated := fs.created,
            killCalls := cleanup_kill_count kr (if fs.created then some () else none) }
        | .ok _ =>
          { events := ev0 ++
              implement_core w solution branchName username repoName originalOwner,
            exc := none, llmCalls := [],
            createCalls := fs.createCalls, sandboxCreated := fs.created,
            killCalls := cleanup_kill_count kr (if fs.created then some () else none) }
      else
        { events := [.error ("Fork not found: " ++ username ++ "/" ++ repoName
            ++ ". Please fork " ++ originalOwner ++ "/" ++ repoName
            ++ " first at https://github.com/" ++ originalOwner ++ "/" ++ repoName
            ++ "/fork")],
          exc := none, llmCalls := [], createCalls := 0, sandboxCreated := false,
          killCalls := cleanup_kill_count kr none }

/-- The SSE generator of `POST /agent/implement`
(agent_controller.py lines 276-316): forwarded events, a controller
error event if the stream raised (it never re-raises in the service),
and an unconditional closing `done` in the `finally:` block. -/
def implement_event_generator (w : ImplWorld) (kr : Except String Unit)
    (solution : JValue) (repoUrl branchName githubToken : String)
    (commitMessage : Option String) : List SSEMessage :=
  let r := implement_solution_stream w kr solution repoUrl branchName githubToken
    commitMessage
  (r.events.map SSEMessage.fromService)
  ++ (match r.exc with
      | some m => [SSEMessage.fromService (.error m)]
      | none => [])
  ++ [.done]

/-! ## Helpers for stating properties -/

/-- Field access on a JSON object (for statements about parsed
solutions). -/
def jGetField (j : JValue) (k : String) : Option JValue :=
  match j with
  | .obj fields => fields.lookup k
  | _ => none

/-- The tool list the analysis loop passes to the LLM on (0-based) call
`i` out of `N` allotted turns: empty on the final turn, the full
registry otherwise. -/
def turnTools (N i : Nat) : List ToolDefEntry :=
  if i + 1 = N then [] else AGENT_TOOLS

/-- A well-formed Solution object (the seven schema fields, no
placeholder paths, no `code_changes` key), used as a concrete input. -/
def sampleSolutionFields : List (String × JValue) := [
  ("summary", .str "Race in the submit handler"),
  ("root_cause_analysis", .str "The handler is missing an await"),
  ("affected_files", .arr [.str "src/app/foo.py"]),
  ("key_insights", .arr [.obj [
    ("file", .str "src/app/foo.py"),
    ("line_range", .str "50-80"),
    ("code_snippet", .str "async def submit(): ..."),
    ("explanation", .str "This coroutine is never awaited")]]),
  ("suggested_fix", .str "Await the coroutine"),
  ("comments_to_add", .arr [.obj [
    ("file", .str "src/app/foo.py"),
    ("line_number", .num 55),
    ("comment", .str "# NOTE: this needs an await")]]),
  ("commit_message", .str "docs: add analysis for issue #42")]

/-- A `code_changes` list with one retained and one placeholder entry. -/
def sampleChanges : List JValue := [
  .obj [("file", .str "src/app/foo.py"), ("content", .str "fixed")],
  .obj [("file", .str "path/to/foo.py"), ("content", .str "noise")]]

/-- A solution dict carrying both `code_changes` and a placeholder-path
`comments_to_add` entry. -/
def sampleC5Fields : List (String × JValue) := [
  ("code_changes", .arr sampleChanges),
  ("comments_to_add", .arr [.obj [
    ("file", .str "path/to/foo.py"),
    ("line_number", .num 5),
    ("comment", .str "# note")]])]

/-! ## Lemmas -/

theorem cleanup_kill_count_none (kr : Except String Unit) :
    cleanup_kill_count kr none = 0 := rfl

theorem cleanup_kill_count_some (kr : Except String Unit) :
    cleanup_kill_count kr (some ()) = 1 := by
  cases kr <;> rfl

theorem cleanup_kill_count_irrel (kr kr' : Except String Unit) (sb : Option Unit) :
    cleanup_kill_count kr sb = cleanup_kill_count kr' sb := by
  cases sb with
  | none => rfl
  | some u => cases kr <;> cases kr' <;> rfl

theorem getLast?_append_single {α : Type} (l : List α) (a : α) :
    (l ++ [a]).getLast? = some a := by
  induction l with
  | nil => rfl
  | cons b l ih =>
    cases l with
    | nil => rfl
    | cons c l => simpa using ih

theorem countP_map_fromService (l : List ServiceEvent) :
    (l.map SSEMessage.fromService).countP isDoneMsg = 0 := by
  induction l with
  | nil => rfl
  | cons a l ih => simp [List.countP_cons, isDoneMsg, ih]

/-! ## C7 and C10: degraded fallback of the solution parser -/

/-- C7: when neither a fenced block nor a brace span yields parseable
JSON, `_parse_solution` returns (without raising) the degraded Solution
whose `root_cause_analysis` is the raw input text verbatim and whose
list fields are all empty. -/
theorem parse_unparseable_degraded (text : String) :
    parse_solution none none text = Except.ok (degradedSolution text) ∧
    jGetField (degradedSolution text) "root_cause_analysis" = some (.str text) ∧
    jGetField (degradedSolution text) "affected_files" = some (.arr []) ∧
    jGetField (degradedSolution text) "key_insights" = some (.arr []) ∧
    jGetField (degradedSolution text) "comments_to_add" = some (.arr []) :=
  ⟨rfl, rfl, rfl, rfl, rfl⟩

/-- C10: an extracted JSON object that parses to the empty object is
falsy in Python, so `_parse_solution` discards it and returns the
degraded fallback built from the whole input text (both when the brace
span also parses to the empty object and when it yields nothing). -/
theorem parse_empty_object_degraded (text : String) :
    parse_solution (some (.obj [])) (some (.obj [])) text
      = Except.ok (degradedSolution text) ∧
    parse_solution (some (.obj [])) none text
      = Except.ok (degradedSolution text) ∧
    jGetField (degradedSolution text) "root_cause_analysis" = some (.str text) :=
  ⟨rfl, rfl, rfl⟩

/-! ## C9: tool registry contents -/

/-- C9 counterexample: the registry declares five tool variants, and
`write_file` is not among them. -/
theorem agent_tools_has_five_cex :
    AGENT_TOOLS.length = 5 ∧ get_tool_names.contains "write_file" = false :=
  ⟨rfl, rfl⟩

/-- C9 amended: the registry declares exactly the five variants
`read_file`, `list_files`, `search_code`, `run_command`,
`get_file_tree`, each with a name, a non-empty description and an
object parameter schema; `write_file` is recognised only by the tool
executor's dispatch chain. -/
theorem agent_tools_registry_contents :
    get_tool_names
      = ["read_file", "list_files", "search_code", "run_command", "get_file_tree"] ∧
    executor_tool_names = get_tool_names ++ ["write_file"] ∧
    (AGENT_TOOLS.all fun t =>
      t.type == "function" && !(t.function.description == "")
        && (match t.function.parameters with | .obj _ => true | _ => false)) = true :=
  ⟨rfl, rfl, rfl⟩

/-! ## C4: the truncation policy -/

/-- C4: with budget `B = max_tokens_per_tool * 4` (positive
configuration), a tool result of length `L ≤ B` is returned unchanged;
one of length `L > B` becomes the first `B/2` characters, the marker
naming `L`, and the last `B/2` characters, with total length
`B + len(marker)`. -/
theorem truncate_output_spec (m : Nat) (text : List Char) (hm : 0 < m) :
    (text.length ≤ m * 4 → truncate_output m text = text) ∧
    (m * 4 < text.length →
      truncate_output m text
        = text.take (m * 4 / 2) ++ truncMarker text.length
            ++ text.drop (text.length - m * 4 / 2) ∧
      (truncate_output m text).length = m * 4 + (truncMarker text.length).length ∧
      (truncate_output m text).take (m * 4 / 2) = text.take (m * 4 / 2) ∧
      (truncate_output m text).drop ((truncate_output m text).length - m * 4 / 2)
        = text.drop (text.length - m * 4 / 2)) := by
  constructor
  · intro h
    unfold truncate_output
    simp [h]
  · intro h
    have hnot : ¬ text.length ≤ m * 4 := by omega
    have hhalf0 : ¬ m * 4 / 2 = 0 := by omega
    have heq : truncate_output m text
        = text.take (m * 4 / 2) ++ truncMarker text.length
            ++ text.drop (text.length - m * 4 / 2) := by
      unfold truncate_output pySliceLast
      simp [hnot, hhalf0]
    have hlt : m * 4 / 2 ≤ text.length := by omega
    have h1 : (text.take (m * 4 / 2)).length = m * 4 / 2 := by
      rw [List.length_take]
      omega
    have h2 : (text.drop (text.length - m * 4 / 2)).length = m * 4 / 2 := by
      rw [List.length_drop]
      omega
    have hlen : (truncate_output m text).length
        = m * 4 + (truncMarker text.length).length := by
      rw [heq]
      simp only [List.length_append, h1, h2]
      omega
    refine ⟨heq, hlen, ?_, ?_⟩
    · rw [heq, List.append_assoc]
      exact List.take_left' h1
    · rw [hlen, heq]
      have h3 : (text.take (m * 4 / 2) ++ truncMarker text.length).length
          = m * 4 + (truncMarker text.length).length - m * 4 / 2 := by
        simp only [List.length_append, h1]
        omega
      rw [← h3]
      exact List.drop_left _ _

/-- C4 witness: the truncation of a 9-character result under a budget
of 4 characters keeps the first and last two characters around the
marker. -/
theorem truncate_output_spec_witness :
    truncate_output 1 "abcdefghi".data
      = "abcdefghi".data.take (1 * 4 / 2) ++ truncMarker ("abcdefghi".data.length)
          ++ "abcdefghi".data.drop ("abcdefghi".data.length - 1 * 4 / 2) ∧
    (truncate_output 1 "abcdefghi".data).length
      = 1 * 4 + (truncMarker ("abcdefghi".data.length)).length ∧
    (truncate_output 1 "abcdefghi".data).take (1 * 4 / 2)
      = "abcdefghi".data.take (1 * 4 / 2) ∧
    (truncate_output 1 "abcdefghi".data).drop
        ((truncate_output 1 "abcdefghi".data).length - 1 * 4 / 2)
      = "abcdefghi".data.drop ("abcdefghi".data.length - 1 * 4 / 2) :=
  (truncate_output_spec 1 "abcdefghi".data (by decide)).2 (by decide)

/-! ## C5 and C6: post-parse validation of the solution -/

theorem lookup_cons_pair (a : String) (p : String × JValue)
    (es : List (String × JValue)) :
    List.lookup a (p :: es)
      = (if a == p.1 then some p.2 else List.lookup a es) := by
  obtain ⟨x, y⟩ := p
  cases h : (a == x) <;> simp [List.lookup, h]

theorem lookup_map_setval (l : List (String × JValue)) (k k' : String) (v : JValue)
    (h : k' ≠ k) :
    (l.map fun kv => if kv.1 = k then (kv.1, v) else kv).lookup k' = l.lookup k' := by
  induction l with
  | nil => rfl
  | cons kv rest ih =>
    simp only [List.map_cons]
    rw [lookup_cons_pair, lookup_cons_pair]
    by_cases hk : kv.1 = k
    · rw [if_pos hk]
      have hne : (k' == kv.1) = false := by
        rw [hk]
        exact beq_eq_false_iff_ne.mpr h
      simp [hne, ih]
    · rw [if_neg hk]
      cases h2 : (k' == kv.1) <;> simp [h2, ih]

theorem lookup_append_single_ne (l : List (String × JValue)) (k k' : String) (v : JValue)
    (h : k' ≠ k) : (l ++ [(k, v)]).lookup k' = l.lookup k' := by
  induction l with
  | nil =>
    have hne : (k' == k) = false := beq_eq_false_iff_ne.mpr h
    simp [List.lookup, hne]
  | cons kv rest ih =>
    simp only [List.cons_append]
    rw [lookup_cons_pair, lookup_cons_pair]
    cases h2 : (k' == kv.1) <;> simp [h2, ih]

theorem lookup_setKey_ne (fields : List (String × JValue)) (k k' : String) (v : JValue)
    (h : k' ≠ k) : (setKey fields k v).lookup k' = fields.lookup k' := by
  unfold setKey
  split
  · exact lookup_map_setval fields k k' v h
  · exact lookup_append_single_ne fields k k' v h

theorem validateChange_of_wf (c : JValue) :
    wellFormedChange c = true →
    validateChange c = .ok (if keepChange c then some c else none) := by
  cases c with
  | obj fields =>
    show (match (fields.lookup "file").getD (JValue.str "") with
          | JValue.str _ => true
          | _ => false) = true →
        (if !(jTruthy ((fields.lookup "file").getD (JValue.str ""))) then
          (Except.ok none : Except String (Option JValue))
        else
          match (fields.lookup "file").getD (JValue.str "") with
          | JValue.str s =>
            if invalid_patterns.any (fun pat => pyIn pat (pyLower s)) then .ok none
            else .ok (some (JValue.obj fields))
          | _ => .error "AttributeError")
        = .ok (if (match (fields.lookup "file").getD (JValue.str "") with
                   | JValue.str s =>
                     !(s == "") && !(invalid_patterns.any fun pat => pyIn pat (pyLower s))
                   | _ => false) = true
               then some (JValue.obj fields) else none)
    generalize (fields.lookup "file").getD (JValue.str "") = d
    cases d with
    | str s =>
      intro _
      simp only [jTruthy]
      by_cases hs : s = ""
      · subst hs
        simp
      · have hs' : (s == "") = false := beq_eq_false_iff_ne.mpr hs
        by_cases hpat : (invalid_patterns.any fun pat => pyIn pat (pyLower s)) = true
        · simp [hs', hpat]
        · have hpat' : (invalid_patterns.any fun pat => pyIn pat (pyLower s)) = false :=
            Bool.eq_false_iff.mpr hpat
          simp [hs', hpat']
    | null => intro hx; simp at hx
    | bool b => intro hx; simp at hx
    | num n => intro hx; simp at hx
    | arr xs => intro hx; simp at hx
    | obj fs => intro hx; simp at hx
  | null => intro hx; simp [wellFormedChange] at hx
  | bool b => intro hx; simp [wellFormedChange] at hx
  | num n => intro hx; simp [wellFormedChange] at hx
  | str s => intro hx; simp [wellFormedChange] at hx
  | arr xs => intro hx; simp [wellFormedChange] at hx

theorem validateChanges_eq_filter (changes : List JValue)
    (h : changes.all wellFormedChange = true) :
    validateChanges changes = .ok (changes.filter keepChange) := by
  induction changes with
  | nil => rfl
  | cons c rest ih =>
    rw [List.all_cons, Bool.and_eq_true] at h
    obtain ⟨hc, hrest⟩ := h
    have hv := validateChange_of_wf c hc
    have ih' := ih hrest
    cases hkeep : keepChange c with
    | true =>
      rw [hkeep] at hv
      simp only [if_true] at hv
      simp [validateChanges, hv, ih', List.filter_cons, hkeep]
    | false =>
      rw [hkeep] at hv
      simp only [Bool.false_eq_true, if_false] at hv
      simp [validateChanges, hv, ih', List.filter_cons, hkeep]

/-- C5 counterexample: a `comments_to_add` entry whose file is the
placeholder path `path/to/foo.py` is NOT dropped — `_parse_solution`
returns it unchanged (only a `code_changes` key is normalised in). -/
theorem comments_to_add_not_sanitized_cex :
    parse_solution
      (some (.obj [("comments_to_add", .arr [.obj [("file", .str "path/to/foo.py"),
        ("line_number", .num 5), ("comment", .str "# note")]])]))
      none "raw" =
    Except.ok (.obj [("comments_to_add", .arr [.obj [("file", .str "path/to/foo.py"),
        ("line_number", .num 5), ("comment", .str "# note")]]),
      ("code_changes", .arr [])]) := rfl

/-- C5 amended: the post-parse validation filters only `code_changes`
(dropping entries whose file path is empty or matches the placeholder
blocklist) and leaves `comments_to_add` untouched; in particular a
`comments_to_add` entry with file `path/to/foo.py` is retained, while a
`code_changes` entry with that path is dropped and one with
`src/app/foo.py` is retained. -/
theorem code_changes_sanitization (fields : List (String × JValue))
    (changes : List JValue) (text : String)
    (hne : fields.isEmpty = false)
    (hcc : fields.lookup "code_changes" = some (.arr changes))
    (hwf : changes.all wellFormedChange = true) :
    parse_solution (some (.obj fields)) none text =
      Except.ok (.obj (setKey fields "code_changes" (.arr (changes.filter keepChange)))) ∧
    (setKey fields "code_changes" (.arr (changes.filter keepChange))).lookup "comments_to_add"
      = fields.lookup "comments_to_add" ∧
    keepChange (.obj [("file", .str "path/to/foo.py")]) = false ∧
    keepChange (.obj [("file", .str "src/app/foo.py")]) = true := by
  refine ⟨?_, lookup_setKey_ne fields _ _ _ (by decide), by decide, by decide⟩
  simp [parse_solution, pyTruthyOpt, jTruthy, hne, hcc, pyIterItems,
    validateChanges_eq_filter changes hwf]

/-- C5 witness: on a concrete solution carrying both lists, the
placeholder `code_changes` entry is dropped, the valid one kept, and
the placeholder `comments_to_add` entry survives. -/
theorem code_changes_sanitization_witness :
    parse_solution (some (.obj sampleC5Fields)) none "" =
      Except.ok (.obj (setKey sampleC5Fields "code_changes"
        (.arr (sampleChanges.filter keepChange)))) ∧
    (setKey sampleC5Fields "code_changes"
        (.arr (sampleChanges.filter keepChange))).lookup "comments_to_add"
      = sampleC5Fields.lookup "comments_to_add" ∧
    keepChange (.obj [("file", .str "path/to/foo.py")]) = false ∧
    keepChange (.obj [("file", .str "src/app/foo.py")]) = true :=
  code_changes_sanitization sampleC5Fields sampleChanges "" rfl rfl rfl

/-- C6 counterexample: on a valid Solution object with no placeholder
paths (and, per the schema, no `code_changes` key), the parser does not
return the parsed JSON field-for-field: it adds a `code_changes` key. -/
theorem parse_roundtrip_adds_code_changes_cex :
    parse_solution (some (.obj sampleSolutionFields)) none "" =
      Except.ok (.obj (sampleSolutionFields ++ [("code_changes", JValue.arr [])])) ∧
    sampleSolutionFields.lookup "code_changes" = none :=
  ⟨rfl, rfl⟩

/-- C6 amended: for model text whose fenced block parses to a non-empty
Solution object without a `code_changes` key, the parser returns that
object with every original field unchanged and exactly one added field,
`code_changes`, set to the empty list. -/
theorem parse_roundtrip_modulo_code_changes (fields : List (String × JValue))
    (text : String)
    (hne : fields.isEmpty = false)
    (habs : fields.lookup "code_changes" = none) :
    parse_solution (some (.obj fields)) none text =
      Except.ok (.obj (fields ++ [("code_changes", JValue.arr [])])) ∧
    ∀ k : String, k ≠ "code_changes" →
      (fields ++ [("code_changes", JValue.arr [])]).lookup k = fields.lookup k := by
  constructor
  · simp [parse_solution, pyTruthyOpt, jTruthy, hne, habs, pyIterItems,
      validateChanges, setKey]
  · intro k hk
    exact lookup_append_single_ne fields _ k _ hk

/-- C6 witness: the amended round-trip at a concrete Solution object;
the original `summary` field is preserved. -/
theorem parse_roundtrip_modulo_code_changes_witness :
    parse_solution (some (.obj sampleSolutionFields)) none "" =
      Except.ok (.obj (sampleSolutionFields ++ [("code_changes", JValue.arr [])])) ∧
    (sampleSolutionFields ++ [("code_changes", JValue.arr [])]).lookup "summary"
      = sampleSolutionFields.lookup "summary" := by
  have h := parse_roundtrip_modulo_code_changes sampleSolutionFields "" rfl rfl
  exact ⟨h.1, h.2 "summary" (by decide)⟩

/-! ## C8: missing fork stops the implementation before the sandbox -/

/-- C8: when the fork-existence check returns false (after a
successful username lookup and owner/repo parse), the implementation
run emits exactly one error event — naming the `user/repo` fork and the
exact `https://github.com/<owner>/<repo>/fork` URL — propagates no
exception, and never calls `Sandbox.create`. -/
theorem fork_missing_stops_before_sandbox (w : ImplWorld) (kr : Except String Unit)
    (solution : JValue) (repoUrl branchName githubToken : String)
    (commitMessage : Option String) (u owner name : String)
    (hu : w.username = some u)
    (hp : parseOwnerRepo repoUrl = some (owner, name))
    (hf : w.repoExists = false) :
    implement_solution_stream w kr solution repoUrl branchName githubToken commitMessage
      = { events := [.error ("Fork not found: " ++ u ++ "/" ++ name
            ++ ". Please fork " ++ owner ++ "/" ++ name
            ++ " first at https://github.com/" ++ owner ++ "/" ++ name ++ "/fork")],
          exc := none, llmCalls := [], createCalls := 0, sandboxCreated := false,
          killCalls := 0 } := by
  unfold implement_solution_stream
  rw [hu, hp, hf]
  simp [cleanup_kill_count]

/-- C8 witness: a concrete run against `acme/widget` with the fork
absent. -/
theorem fork_missing_stops_before_sandbox_witness :
    implement_solution_stream
      { username := some "alice", repoExists := false, e2bKeyPresent := true,
        createRes := .ok (), forkCloneRes := .ok ⟨0, "", ""⟩,
        branchRes := .ok ⟨0, "", ""⟩, analysisWriteRes := .ok (), addRes := .ok (),
        diffCachedRes := .ok ⟨0, "x", ""⟩, commitRes := .ok ⟨0, "", ""⟩,
        diffRes := .ok ⟨0, "", ""⟩, pushRes := .ok ⟨0, "", ""⟩ }
      (.ok ()) (.obj []) "https://github.com/acme/widget" "fix-42" "tok" none
      = { events := [.error ("Fork not found: " ++ "alice" ++ "/" ++ "widget"
            ++ ". Please fork " ++ "acme" ++ "/" ++ "widget"
            ++ " first at https://github.com/" ++ "acme" ++ "/" ++ "widget" ++ "/fork")],
          exc := none, llmCalls := [], createCalls := 0, sandboxCreated := false,
          killCalls := 0 } :=
  fork_missing_stops_before_sandbox _ _ _ _ _ _ _ "alice" "acme" "widget"
    rfl (by decide) rfl

/-! ## C1: every SSE stream ends with exactly one `done` -/

theorem countP_map_solRewrite (sid : Option String) (l : List ServiceEvent) :
    (l.map (fun e =>
      match e with
      | ServiceEvent.solution _ d => SSEMessage.fromService (.solution sid d)
      | e => SSEMessage.fromService e)).countP isDoneMsg = 0 := by
  induction l with
  | nil => rfl
  | cons a l ih => cases a <;> simp [List.countP_cons, isDoneMsg, ih]

theorem countP_done_closing (A B : List SSEMessage)
    (hA : A.countP isDoneMsg = 0) (hB : B.countP isDoneMsg = 0) :
    ((A ++ B) ++ [SSEMessage.done]).countP isDoneMsg = 1 := by
  rw [List.countP_append, List.countP_append, hA, hB]
  rfl

/-- C1: both controller event generators — analysis and implementation —
emit `done` as the last server-sent message and emit it exactly once,
on the success, error, and exception paths alike. -/
theorem analysis_and_implement_streams_end_with_done :
    (∀ (initErr : Option String) (w : AnalyzeWorld) (kr : Except String Unit)
        (req : AgentAnalyzeRequest) (sid : Option String) (N : Nat),
      (analyze_event_generator initErr w kr req sid N).getLast? = some SSEMessage.done ∧
      (analyze_event_generator initErr w kr req sid N).countP isDoneMsg = 1) ∧
    (∀ (w : ImplWorld) (kr : Except String Unit) (sol : JValue)
        (repoUrl branchName githubToken : String) (cm : Option String),
      (implement_event_generator w kr sol repoUrl branchName githubToken cm).getLast?
        = some SSEMessage.done ∧
      (implement_event_generator w kr sol repoUrl branchName githubToken cm).countP
        isDoneMsg = 1) := by
  constructor
  · intro initErr w kr req sid N
    cases initErr with
    | some m => exact ⟨rfl, rfl⟩
    | none =>
      refine ⟨getLast?_append_single _ _,
        countP_done_closing _ _ (countP_map_solRewrite sid _) ?_⟩
      cases (analyze_issue_stream w kr req N).exc <;> rfl
  · intro w kr sol repoUrl branchName githubToken cm
    refine ⟨getLast?_append_single _ _,
      countP_done_closing _ _ (countP_map_fromService _) ?_⟩
    cases (implement_solution_stream w kr sol repoUrl branchName githubToken cm).exc
      <;> rfl

/-! ## C2: sandbox teardown exactly once, kill failures swallowed -/

/-- C2: on every exit path of both service generators, `sandbox.kill()`
is invoked exactly once when a sandbox was created and never otherwise;
and the run's outcome is identical whether the kill succeeds or raises
(the failure is logged, never propagated). -/
theorem sandbox_teardown_exactly_once :
    (∀ (w : AnalyzeWorld) (kr : Except String Unit) (req : AgentAnalyzeRequest)
        (N : Nat),
      (analyze_issue_stream w kr req N).killCalls
        = (if (analyze_issue_stream w kr req N).sandboxCreated then 1 else 0)) ∧
    (∀ (w : ImplWorld) (kr : Except String Unit) (sol : JValue)
        (repoUrl branchName githubToken : String) (cm : Option String),
      (implement_solution_stream w kr sol repoUrl branchName githubToken cm).killCalls
        = (if (implement_solution_stream w kr sol repoUrl branchName githubToken
            cm).sandboxCreated then 1 else 0)) ∧
    (∀ (w : AnalyzeWorld) (kr kr' : Except String Unit) (req : AgentAnalyzeRequest)
        (N : Nat),
      analyze_issue_stream w kr req N = analyze_issue_stream w kr' req N) ∧
    (∀ (w : ImplWorld) (kr kr' : Except String Unit) (sol : JValue)
        (repoUrl branchName githubToken : String) (cm : Option String),
      implement_solution_stream w kr sol repoUrl branchName githubToken cm
        = implement_solution_stream w kr' sol repoUrl branchName githubToken cm) := by
  refine ⟨?_, ?_, ?_, ?_⟩
  · intro w kr req N
    unfold analyze_issue_stream
    cases w.e2bKeyPresent with
    | false => simp [cleanup_kill_count_none]
    | true =>
      cases w.createRes with
      | error m => simp [cleanup_kill_count_none]
      | ok u =>
        cases start_sandbox_clone w.cloneRes req.repo_url with
        | error m => simp [cleanup_kill_count_some]
        | ok u => simp [cleanup_kill_count_some]
  · intro w kr sol repoUrl branchName githubToken cm
    unfold implement_solution_stream
    cases w.username with
    | none => simp [cleanup_kill_count_none]
    | some username =>
      cases parseOwnerRepo repoUrl with
      | none => simp [cleanup_kill_count_none]
      | some pr =>
        obtain ⟨originalOwner, repoName⟩ := pr
        cases w.repoExists with
        | false => simp [cleanup_kill_count_none]
        | true =>
          cases hres : (start_sandbox_with_fork w ("https://" ++ githubToken
              ++ "@github.com/" ++ username ++ "/" ++ repoName ++ ".git")).res with
          | error m =>
            simp only [hres]
            cases (start_sandbox_with_fork w ("https://" ++ githubToken
                ++ "@github.com/" ++ username ++ "/" ++ repoName ++ ".git")).created with
            | false => simp [cleanup_kill_count_none]
            | true => simp [cleanup_kill_count_some]
          | ok u =>
            simp only [hres]
            cases (start_sandbox_with_fork w ("https://" ++ githubToken
                ++ "@github.com/" ++ username ++ "/" ++ repoName ++ ".git")).created with
            | false => simp [cleanup_kill_count_none]
            | true => simp [cleanup_kill_count_some]
  · intro w kr kr' req N
    unfold analyze_issue_stream
    cases w.e2bKeyPresent with
    | false => simp [cleanup_kill_count_irrel kr kr']
    | true =>
      cases w.createRes with
      | error m => simp [cleanup_kill_count_irrel kr kr']
      | ok u =>
        cases start_sandbox_clone w.cloneRes req.repo_url with
        | error m => simp [cleanup_kill_count_irrel kr kr']
        | ok u => simp [cleanup_kill_count_irrel kr kr']
  · intro w kr kr' sol repoUrl branchName githubToken cm
    unfold implement_solution_stream
    cases w.username with
    | none => simp [cleanup_kill_count_irrel kr kr']
    | some username =>
      cases parseOwnerRepo repoUrl with
      | none => simp [cleanup_kill_count_irrel kr kr']
      | some pr =>
        obtain ⟨originalOwner, repoName⟩ := pr
        cases w.repoExists with
        | false => simp [cleanup_kill_count_irrel kr kr']
        | true =>
          cases hres : (start_sandbox_with_fork w ("https://" ++ githubToken
              ++ "@github.com/" ++ username ++ "/" ++ repoName ++ ".git")).res with
          | error m => simp [hres, cleanup_kill_count_irrel kr kr']
          | ok u => simp [hres, cleanup_kill_count_irrel kr kr']

/-! ## C3: the turn budget of the analysis loop -/

theorem loopGo_calls (w : AnalyzeWorld) (N : Nat) :
    ∀ (fuel turn : Nat) (st : LoopState), turn + fuel = N →
      st.llmCalls = (List.range turn).map (turnTools N) →
      ∃ k, k ≤ N ∧
        (loopGo w N fuel turn st).state.llmCalls = (List.range k).map (turnTools N) := by
  intro fuel
  induction fuel with
  | zero =>
    intro turn st ht hst
    refine ⟨turn, by omega, ?_⟩
    simpa [loopGo, LoopOutcome.state] using hst
  | succ fuel ih =>
    intro turn st ht hst
    have hle : turn + 1 ≤ N := by omega
    have htools : (if turn == N - 1 then ([] : List ToolDefEntry) else AGENT_TOOLS)
        = turnTools N turn := by
      unfold turnTools
      by_cases h : turn + 1 = N
      · have h1 : (turn == N - 1) = true := by
          simp only [beq_iff_eq]
          omega
        simp [h1, h]
      · have h1 : (turn == N - 1) = false := by
          simp only [beq_eq_false_iff_ne]
          omega
        simp [h1, h]
    have happ : st.llmCalls
          ++ [(if turn == N - 1 then ([] : List ToolDefEntry) else AGENT_TOOLS)]
        = (List.range (turn + 1)).map (turnTools N) := by
      rw [htools, hst, List.range_succ, List.map_append]
      rfl
    simp only [loopGo]
    cases hllm : w.llm st.llmCalls.length with
    | error m =>
      refine ⟨turn + 1, hle, ?_⟩
      simpa [LoopOutcome.state] using happ
    | ok resp =>
      cases hth : pyTruthyStrOpt resp.content with
      | true =>
        by_cases hfin : (resp.finishReason == "stop" || turn == N - 1) = true
        · cases hps : parse_solution w.fenced w.brace (resp.content.getD "") with
          | error m =>
            refine ⟨turn + 1, hle, ?_⟩
            simpa [hth, hfin, hps, LoopOutcome.state] using happ
          | ok sol =>
            refine ⟨turn + 1, hle, ?_⟩
            simpa [hth, hfin, hps, LoopOutcome.state] using happ
        · cases hts : resp.toolCalls with
          | nil =>
            simp only [hth, hts, hfin]
            simp
            exact ih (turn + 1) _ (by omega) (by simpa using happ)
          | cons tc rest =>
            simp only [hth, hts, hfin]
            simp
            exact ih (turn + 1) _ (by omega) (by simpa using happ)
      | false =>
        by_cases hfin : (resp.finishReason == "stop" || turn == N - 1) = true
        · cases hps : parse_solution w.fenced w.brace (resp.content.getD "") with
          | error m =>
            refine ⟨turn + 1, hle, ?_⟩
            simpa [hth, hfin, hps, LoopOutcome.state] using happ
          | ok sol =>
            refine ⟨turn + 1, hle, ?_⟩
            simpa [hth, hfin, hps, LoopOutcome.state] using happ
        · cases hts : resp.toolCalls with
          | nil =>
            simp only [hth, hts, hfin]
            simp
            exact ih (turn + 1) _ (by omega) (by simpa using happ)
          | cons tc rest =>
            simp only [hth, hts, hfin]
            simp
            exact ih (turn + 1) _ (by omega) (by simpa using happ)

theorem get?_range_map {α : Type} (f : Nat → α) (k i : Nat) :
    ((List.range k).map f).get? i = if i < k then some (f i) else none := by
  by_cases h : i < k
  · rw [if_pos h, List.get?_map, List.get?_range h]
    rfl
  · rw [if_neg h]
    rw [List.get?_eq_none]
    simp only [List.length_map, List.length_range]
    omega

/-- C3: one analysis run makes at most `max_turns` LLM calls, and every
call it does make receives the full registry except the `max_turns`-th
(final) one, whose tool list is empty — so the loop always ends in a
turn on which the model cannot request tools. -/
theorem analysis_loop_llm_call_budget (w : AnalyzeWorld) (kr : Except String Unit)
    (req : AgentAnalyzeRequest) (N : Nat) :
    (analyze_issue_stream w kr req N).llmCalls.length ≤ N ∧
    ∀ i : Nat,
      (analyze_issue_stream w kr req N).llmCalls.get? i = none ∨
      (analyze_issue_stream w kr req N).llmCalls.get? i
        = some (if i + 1 = N then [] else AGENT_TOOLS) := by
  have key : ∃ k, k ≤ N ∧ (analyze_issue_stream w kr req N).llmCalls
      = (List.range k).map (turnTools N) := by
    unfold analyze_issue_stream
    cases w.e2bKeyPresent with
    | false => exact ⟨0, by omega, by simp⟩
    | true =>
      cases w.createRes with
      | error m => exact ⟨0, by omega, by simp⟩
      | ok u =>
        cases start_sandbox_clone w.cloneRes req.repo_url with
        | error m => exact ⟨0, by omega, by simp⟩
        | ok u =>
          simpa using loopGo_calls w N N 0 ⟨[], [], 0⟩ (by omega) rfl
  obtain ⟨k, hk, hcalls⟩ := key
  rw [hcalls]
  constructor
  · simp only [List.length_map, List.length_range]
    omega
  · intro i
    rw [get?_range_map]
    by_cases h : i < k
    · right
      rw [if_pos h]
      rfl
    · left
      rw [if_neg h]
